import Mathlib

/-!
Verification of the conversation-history store and chat handler of
`converse-lite` (src/main.py), shallowly embedded in Lean.

The Python service keeps a global dict `conversation_histories` mapping a
session id to a mutable list of `Message` records.  We embed the dict as an
association list over `String` keys (Python dict semantics: lookup by key,
assignment replaces the binding or inserts a new one).  A crucial point of
the embedding is Python list aliasing: `conversation_histories.get(sid, [])`
returns *the stored list object itself* when the key is present, so the
subsequent in-place `history.append(...)` already mutates the store; when the
key is absent the returned default `[]` is a fresh local list and the store
is only touched by the final assignment `conversation_histories[sid] = history`,
which runs only on the success path.
-/

namespace ConverseLite

/-- `Message` (src/main.py lines 18-20): a role tag and text content. -/
structure Message where
  role : String
  content : String
deriving DecidableEq

/-- `ChatRequest` (src/main.py lines 22-25) after pydantic validation:
`session_id` and `message` are required strings, `model_name` optional. -/
structure ChatRequest where
  session_id : String
  message : String
  model_name : Option String
deriving DecidableEq

/-- `ChatResponse` (src/main.py lines 27-29). -/
structure ChatResponse where
  reply : String
  conversation : List Message
deriving DecidableEq

/-- An `HTTPException` surfaced at the request boundary: status code and
detail string. -/
structure HTTPError where
  status_code : Nat
  detail : String
deriving DecidableEq

/-- The response of the upload endpoint (src/main.py line 82). -/
structure UploadResult where
  filename : String
  size : Nat
  message : String
deriving DecidableEq

/-- The global dict `conversation_histories` (src/main.py line 16), embedded
as an association list from session id to transcript. -/
abbrev Store := List (String × List Message)

/-- Python `dict.get` on the store: the value bound to the first (unique)
occurrence of the key, if any. -/
def dictGet (store : Store) (k : String) : Option (List Message) :=
  match store with
  | [] => none
  | (k', v) :: rest => if k' = k then some v else dictGet rest k

/-- Python dict assignment `store[k] = v`: replace the existing binding of
`k`, or append a new binding. -/
def dictSet (store : Store) (k : String) (v : List Message) : Store :=
  match store with
  | [] => [(k, v)]
  | (k', v') :: rest =>
      if k' = k then (k, v) :: rest else (k', v') :: dictSet rest k v

/-- The behaviour of the external LiteLLM model on one call: given the
context string, either a reply or a raised exception (its message). -/
abbrev ModelBehavior := String → Except String String

/-- The serialization of a transcript into the model context
(src/main.py line 57): each turn as "role: content", joined by newlines. -/
def contextOf (history : List Message) : String :=
  String.intercalate "\n" (history.map (fun msg => msg.role ++ ": " ++ msg.content))

/-- The context string that `chat_endpoint` passes to the model for a given
store and request: the session's prior transcript with the incoming user
turn appended, serialized by `contextOf`. -/
def chatContext (store : Store) (req : ChatRequest) : String :=
  contextOf ((dictGet store req.session_id).getD [] ++ [⟨"user", req.message⟩])

/-- The body of `chat_endpoint` (src/main.py lines 31-70) on a validated
`ChatRequest`, returning the HTTP-level outcome and the store afterwards.

Line-by-line correspondence:
* line 42: `history = conversation_histories.get(session_id, [])`;
* line 45: `history.append(Message(role="user", content=user_message))` —
  by aliasing this mutates the store exactly when the key was present,
  hence `store1` below;
* lines 48-53: the `model_name` branch only contains `pass`;
* line 57: the context string (`contextOf history1 = chatContext store req`);
* lines 58-61: the model call; on exception an
  `HTTPException(500, "Model inference error: ...")` is raised, which the
  outer `except Exception as e` (lines 69-70) catches and re-raises as
  `HTTPException(500, str(e))`, where starlette's `HTTPException.__str__`
  yields "{status_code}: {detail}" — hence the "500: " prefix;
* lines 64-65: append the assistant turn and assign the store entry;
* line 67: return the reply and the full history. -/
def chat_endpoint (model : ModelBehavior) (store : Store) (req : ChatRequest) :
    Except HTTPError ChatResponse × Store :=
  let history0 := (dictGet store req.session_id).getD []
  let history1 := history0 ++ [⟨"user", req.message⟩]
  let store1 := if (dictGet store req.session_id).isSome
                then dictSet store req.session_id history1
                else store
  match model (contextOf history1) with
  | .error e =>
      (.error ⟨500, "500: Model inference error: " ++ e⟩, store1)
  | .ok reply_text =>
      let history2 := history1 ++ [⟨"assistant", reply_text⟩]
      (.ok ⟨reply_text, history2⟩, dictSet store1 req.session_id history2)

/-- A chat request body as received on the wire, before pydantic
validation: each field may be absent. -/
structure RawChatRequest where
  session_id : Option String
  message : Option String
  model_name : Option String
deriving DecidableEq

/-- Pydantic validation of `ChatRequest` (src/main.py lines 22-25):
`session_id` and `message` are required `str` fields, so a request missing
either is rejected by FastAPI with a 422 validation error before the
endpoint body runs; any present string (including the empty string) is
accepted.  `model_name` is optional. -/
def validateChatRequest (raw : RawChatRequest) : Except HTTPError ChatRequest :=
  match raw.session_id, raw.message with
  | some sid, some msg => .ok ⟨sid, msg, raw.model_name⟩
  | _, _ => .error ⟨422, "field required"⟩

/-- The full handling of one `POST /chat` request (the spec's
`handle_turn`): pydantic validation followed by the endpoint body.  A
validation failure leaves the store untouched. -/
def handle_turn (model : ModelBehavior) (store : Store) (raw : RawChatRequest) :
    Except HTTPError ChatResponse × Store :=
  match validateChatRequest raw with
  | .error e => (.error e, store)
  | .ok req => chat_endpoint model store req

/-- `upload_media` (src/main.py lines 72-84).  The handler never references
`conversation_histories`; it reads the file (which may raise, embedded as
the `readResult` argument) and returns an acknowledgement or a 500.  The
store is threaded through unchanged, mirroring that the body contains no
store operation. -/
def upload_media (store : Store) (session_id : String) (filename : String)
    (readResult : Except String (List Nat)) :
    Except HTTPError UploadResult × Store :=
  match readResult with
  | .ok fileContent =>
      (.ok ⟨filename, fileContent.length, "Media uploaded successfully."⟩, store)
  | .error e => (.error ⟨500, "Upload failed: " ++ e⟩, store)

/-- Run a sequence of `chat_endpoint` calls against one session id,
sequentially, each with its own message, optional `model_name`, and model
behaviour; `some store` if every call succeeded, `none` as soon as one
fails. -/
def runSeq (sid : String) (calls : List (String × Option String × ModelBehavior))
    (store : Store) : Option Store :=
  match calls with
  | [] => some store
  | (msg, mname, model) :: rest =>
      match chat_endpoint model store ⟨sid, msg, mname⟩ with
      | (.ok _, store') => runSeq sid rest store'
      | (.error _, _) => none

/-- The role sequence of `n` well-formed chat exchanges: user, assistant,
repeated `n` times. -/
def pairRoles (n : Nat) : List String :=
  (List.replicate n ["user", "assistant"]).flatten

/-! ## Basic lemmas about the store and the endpoint -/

theorem dictGet_dictSet_same (store : Store) (k : String) (v : List Message) :
    dictGet (dictSet store k v) k = some v := by
  induction store with
  | nil => simp [dictSet, dictGet]
  | cons hd tl ih =>
      obtain ⟨k', v'⟩ := hd
      by_cases h : k' = k
      · simp [dictSet, dictGet, h]
      · simp [dictSet, dictGet, h, ih]

theorem dictGet_dictSet_ne (store : Store) (k k' : String) (v : List Message)
    (h : k' ≠ k) : dictGet (dictSet store k v) k' = dictGet store k' := by
  induction store with
  | nil => simp [dictSet, dictGet, Ne.symm h]
  | cons hd tl ih =>
      obtain ⟨k₀, v₀⟩ := hd
      by_cases h₀ : k₀ = k
      · subst h₀
        simp [dictSet, dictGet, Ne.symm h]
      · simp [dictSet, dictGet, h₀, ih]

/-- Unfolding of `chat_endpoint` with the local lets resolved; the equation
holds by computation. -/
theorem chat_endpoint_eq (model : ModelBehavior) (store : Store) (req : ChatRequest) :
    chat_endpoint model store req =
      match model (chatContext store req) with
      | .error e =>
          (.error ⟨500, "500: Model inference error: " ++ e⟩,
           if (dictGet store req.session_id).isSome
           then dictSet store req.session_id
             ((dictGet store req.session_id).getD [] ++ [⟨"user", req.message⟩])
           else store)
      | .ok reply_text =>
          (.ok ⟨reply_text,
              ((dictGet store req.session_id).getD [] ++ [⟨"user", req.message⟩])
                ++ [⟨"assistant", reply_text⟩]⟩,
           dictSet
             (if (dictGet store req.session_id).isSome
              then dictSet store req.session_id
                ((dictGet store req.session_id).getD [] ++ [⟨"user", req.message⟩])
              else store)
             req.session_id
             (((dictGet store req.session_id).getD [] ++ [⟨"user", req.message⟩])
                ++ [⟨"assistant", reply_text⟩])) := rfl

/-- On a successful call, the reply is the model's answer on the serialized
context, the returned conversation is the prior transcript plus the user and
assistant turns, and the store holds that conversation for the session. -/
theorem chat_endpoint_ok (model : ModelBehavior) (store : Store) (req : ChatRequest)
    (resp : ChatResponse) (store' : Store)
    (h : chat_endpoint model store req = (.ok resp, store')) :
    model (chatContext store req) = .ok resp.reply ∧
    resp.conversation = (dictGet store req.session_id).getD []
      ++ [⟨"user", req.message⟩, ⟨"assistant", resp.reply⟩] ∧
    dictGet store' req.session_id = some resp.conversation := by
  rw [chat_endpoint_eq] at h
  cases hm : model (chatContext store req) with
  | error e => rw [hm] at h; simp at h
  | ok r =>
      rw [hm] at h
      injection h with h1 h2
      injection h1 with h1
      subst h2
      subst h1
      refine ⟨rfl, by simp, ?_⟩
      rw [dictGet_dictSet_same]

theorem pairRoles_zero : pairRoles 0 = [] := rfl

theorem pairRoles_succ (n : Nat) :
    pairRoles (n + 1) = pairRoles n ++ ["user", "assistant"] := by
  simp [pairRoles, List.replicate_succ']

theorem pairRoles_length (n : Nat) : (pairRoles n).length = 2 * n := by
  induction n with
  | zero => rfl
  | succ k ih => rw [pairRoles_succ]; simp [ih]; omega

/-- Invariant preservation: a run of successful calls against one session
extends a transcript whose role sequence is `k` user/assistant pairs to one
of `k + N` pairs. -/
theorem runSeq_roles (sid : String)
    (calls : List (String × Option String × ModelBehavior)) :
    ∀ (store store' : Store) (k : Nat),
    ((dictGet store sid).getD []).map Message.role = pairRoles k →
    runSeq sid calls store = some store' →
    ((dictGet store' sid).getD []).map Message.role = pairRoles (k + calls.length) := by
  induction calls with
  | nil =>
      intro store store' k hk hrun
      simp [runSeq] at hrun
      subst hrun
      simpa using hk
  | cons c rest ih =>
      intro store store' k hk hrun
      obtain ⟨msg, mname, model⟩ := c
      unfold runSeq at hrun
      cases hc : chat_endpoint model store ⟨sid, msg, mname⟩ with
      | mk res st1 =>
          rw [hc] at hrun
          cases res with
          | error e => simp at hrun
          | ok resp =>
              simp only at hrun
              obtain ⟨-, hconv, hget⟩ :=
                chat_endpoint_ok model store ⟨sid, msg, mname⟩ resp st1 hc
              have hstep : ((dictGet st1 sid).getD []).map Message.role
                  = pairRoles (k + 1) := by
                simp only at hget
                rw [hget]
                simp only [Option.getD_some, hconv, List.map_append]
                rw [hk, pairRoles_succ]
                rfl
              have := ih st1 store' (k + 1) hstep hrun
              rw [this]
              congr 1
              simp
              omega

/-! ## Claim theorems -/

/-- Claim C3: the context string passed to the external model equals the
transcript including the just-appended user turn, serialized as
"role: content" per turn joined by newlines.  First conjunct: the endpoint
consults the model only at `chatContext store req` (two model behaviours
agreeing there give identical results).  Second conjunct: `chatContext` is
exactly that serialization.  Third conjunct: the concrete "s1" scenario
yields "user: hello\nassistant: hi there\nuser: how are you". -/
theorem c3_context_is_serialized_transcript
    (store : Store) (req : ChatRequest) (m1 m2 : ModelBehavior)
    (h : m1 (chatContext store req) = m2 (chatContext store req)) :
    chat_endpoint m1 store req = chat_endpoint m2 store req ∧
    chatContext store req = String.intercalate "\n"
      ((((dictGet store req.session_id).getD [] ++ [⟨"user", req.message⟩] : List Message)).map
        (fun msg : Message => msg.role ++ ": " ++ msg.content)) ∧
    chatContext [("s1", [⟨"user", "hello"⟩, ⟨"assistant", "hi there"⟩])]
        ⟨"s1", "how are you", none⟩
      = "user: hello\nassistant: hi there\nuser: how are you" := by
  refine ⟨?_, rfl, rfl⟩
  rw [chat_endpoint_eq, chat_endpoint_eq, h]

/-- Claim C3 witness: the theorem applied at a concrete store, request and
model behaviour. -/
theorem c3_witness :
    chat_endpoint (fun _ => .ok "a") [] ⟨"s9", "m", none⟩
        = chat_endpoint (fun _ => .ok "a") [] ⟨"s9", "m", none⟩ ∧
    chatContext [] ⟨"s9", "m", none⟩ = String.intercalate "\n"
      ((((dictGet [] "s9").getD [] ++ [⟨"user", "m"⟩] : List Message)).map
        (fun msg : Message => msg.role ++ ": " ++ msg.content)) ∧
    chatContext [("s1", [⟨"user", "hello"⟩, ⟨"assistant", "hi there"⟩])]
        ⟨"s1", "how are you", none⟩
      = "user: hello\nassistant: hi there\nuser: how are you" :=
  c3_context_is_serialized_transcript [] ⟨"s9", "m", none⟩
    (fun _ => .ok "a") (fun _ => .ok "a") rfl

/-- Claim C4: after any sequence of successful calls against a fresh
session, executed sequentially, the transcript's role sequence is exactly
user, assistant repeated N times (strict alternation starting with user)
and its length is 2*N. -/
theorem c4_fresh_session_alternation
    (sid : String) (calls : List (String × Option String × ModelBehavior))
    (store store' : Store)
    (hfresh : dictGet store sid = none)
    (hrun : runSeq sid calls store = some store') :
    ((dictGet store' sid).getD []).map Message.role = pairRoles calls.length ∧
    ((dictGet store' sid).getD []).length = 2 * calls.length := by
  have h0 : ((dictGet store sid).getD []).map Message.role = pairRoles 0 := by
    rw [hfresh]; rfl
  have h := runSeq_roles sid calls store store' 0 h0 hrun
  rw [Nat.zero_add] at h
  refine ⟨h, ?_⟩
  have hlen := congrArg List.length h
  rw [List.length_map] at hlen
  rw [hlen, pairRoles_length]

/-- Claim C4 witness: two successful calls on fresh session "s1". -/
theorem c4_witness :
    ((dictGet [("s1", [⟨"user", "hello"⟩, ⟨"assistant", "hi"⟩, ⟨"user", "how"⟩,
        ⟨"assistant", "fine"⟩])] "s1").getD []).map Message.role = pairRoles 2 ∧
    ((dictGet [("s1", [⟨"user", "hello"⟩, ⟨"assistant", "hi"⟩, ⟨"user", "how"⟩,
        ⟨"assistant", "fine"⟩])] "s1").getD []).length = 2 * 2 :=
  c4_fresh_session_alternation "s1"
    [("hello", none, fun _ => .ok "hi"), ("how", some "m", fun _ => .ok "fine")]
    [] [("s1", [⟨"user", "hello"⟩, ⟨"assistant", "hi"⟩, ⟨"user", "how"⟩,
        ⟨"assistant", "fine"⟩])] rfl rfl

/-- Claim C5: on a successful call, the returned value is the model's reply
together with the full updated transcript — the prior transcript followed by
the user turn and an assistant turn carrying the reply — and the store holds
exactly that transcript for the session afterwards. -/
theorem c5_success_returns_updated_transcript
    (model : ModelBehavior) (store : Store) (req : ChatRequest)
    (resp : ChatResponse) (store' : Store)
    (h : chat_endpoint model store req = (.ok resp, store')) :
    model (chatContext store req) = .ok resp.reply ∧
    resp.conversation = (dictGet store req.session_id).getD []
      ++ [⟨"user", req.message⟩, ⟨"assistant", resp.reply⟩] ∧
    dictGet store' req.session_id = some resp.conversation :=
  chat_endpoint_ok model store req resp store' h

/-- Claim C5 witness: a concrete successful call on a fresh session. -/
theorem c5_witness :
    (fun _ : String => (.ok "hi there" : Except String String))
        (chatContext [] ⟨"s1", "hello", none⟩) = .ok "hi there" ∧
    [Message.mk "user" "hello", Message.mk "assistant" "hi there"]
      = (dictGet [] "s1").getD []
        ++ [⟨"user", "hello"⟩, ⟨"assistant", "hi there"⟩] ∧
    dictGet [("s1", [Message.mk "user" "hello", Message.mk "assistant" "hi there"])] "s1"
      = some [Message.mk "user" "hello", Message.mk "assistant" "hi there"] :=
  c5_success_returns_updated_transcript (fun _ => .ok "hi there") []
    ⟨"s1", "hello", none⟩
    ⟨"hi there", [⟨"user", "hello"⟩, ⟨"assistant", "hi there"⟩]⟩
    [("s1", [⟨"user", "hello"⟩, ⟨"assistant", "hi there"⟩])] rfl

/-- Claim C7: a chat call for session `a` leaves the transcript of any
other session `b` unchanged, whether the model call succeeds or fails. -/
theorem c7_other_sessions_unchanged
    (model : ModelBehavior) (store : Store) (a b msg : String) (mn : Option String)
    (hne : a ≠ b) :
    dictGet (chat_endpoint model store ⟨a, msg, mn⟩).2 b = dictGet store b := by
  have hne' : b ≠ a := Ne.symm hne
  rw [chat_endpoint_eq]
  cases model (chatContext store ⟨a, msg, mn⟩) with
  | error e =>
      cases hs : (dictGet store a).isSome <;>
        simp [hs, dictGet_dictSet_ne, hne']
  | ok r =>
      cases hs : (dictGet store a).isSome <;>
        simp [hs, dictGet_dictSet_ne, hne']

/-- Claim C7 witness: a call on session "a" does not touch session "b". -/
theorem c7_witness :
    dictGet (chat_endpoint (fun _ => .ok "r")
      [("b", [⟨"user", "x"⟩])] ⟨"a", "m", none⟩).2 "b"
      = dictGet [("b", [⟨"user", "x"⟩])] "b" :=
  c7_other_sessions_unchanged (fun _ => .ok "r") [("b", [⟨"user", "x"⟩])]
    "a" "b" "m" none (by decide)

/-- Claim C8: `model_name` has no effect: two requests identical except for
the `model_name` field (absent or present with any values) produce the same
outcome and the same store. -/
theorem c8_model_name_has_no_effect
    (model : ModelBehavior) (store : Store) (sid msg : Option String)
    (mn1 mn2 : Option String) :
    handle_turn model store ⟨sid, msg, mn1⟩
      = handle_turn model store ⟨sid, msg, mn2⟩ := by
  cases sid <;> cases msg <;> rfl

/-- Claim C9: the upload endpoint leaves the session store completely
unchanged, for any session id, file name and read outcome. -/
theorem c9_upload_leaves_store_unchanged
    (store : Store) (sid fname : String) (readResult : Except String (List Nat)) :
    (upload_media store sid fname readResult).2 = store := by
  cases readResult <;> rfl

/-- Claim C6: when the model call raises, the endpoint fails with a 500
whose detail string carries the underlying cause, and no assistant turn is
appended: the store afterwards holds at most the user-turn extension of the
session's transcript (exactly when the session already existed) and is
otherwise untouched. -/
theorem c6_model_error_maps_to_500
    (model : ModelBehavior) (store : Store) (req : ChatRequest) (cause : String)
    (hfail : model (chatContext store req) = .error cause) :
    (chat_endpoint model store req).1
      = .error ⟨500, "500: Model inference error: " ++ cause⟩ ∧
    (∃ p, "500: Model inference error: " ++ cause = p ++ cause) ∧
    (chat_endpoint model store req).2
      = if (dictGet store req.session_id).isSome
        then dictSet store req.session_id
          ((dictGet store req.session_id).getD [] ++ [⟨"user", req.message⟩])
        else store := by
  rw [chat_endpoint_eq, hfail]
  exact ⟨rfl, ⟨"500: Model inference error: ", rfl⟩, rfl⟩

/-- Claim C6 witness: a failing model call on an existing session. -/
theorem c6_witness :
    (chat_endpoint (fun _ => .error "boom")
        [("s1", [⟨"user", "hi"⟩, ⟨"assistant", "yo"⟩])] ⟨"s1", "again", none⟩).1
      = .error ⟨500, "500: Model inference error: " ++ "boom"⟩ ∧
    (∃ p, "500: Model inference error: " ++ "boom" = p ++ "boom") ∧
    (chat_endpoint (fun _ => .error "boom")
        [("s1", [⟨"user", "hi"⟩, ⟨"assistant", "yo"⟩])] ⟨"s1", "again", none⟩).2
      = if (dictGet [("s1", [⟨"user", "hi"⟩, ⟨"assistant", "yo"⟩])] "s1").isSome
        then dictSet [("s1", [⟨"user", "hi"⟩, ⟨"assistant", "yo"⟩])] "s1"
          ((dictGet [("s1", [⟨"user", "hi"⟩, ⟨"assistant", "yo"⟩])] "s1").getD []
            ++ [⟨"user", "again"⟩])
        else [("s1", [⟨"user", "hi"⟩, ⟨"assistant", "yo"⟩])] :=
  c6_model_error_maps_to_500 (fun _ => .error "boom")
    [("s1", [⟨"user", "hi"⟩, ⟨"assistant", "yo"⟩])] ⟨"s1", "again", none⟩ "boom" rfl

/-- Claim C10: if the session has no store entry and the model call fails,
the store is left completely unchanged — no entry is created for the
session id, so the appended user turn is not observable later. -/
theorem c10_fresh_session_failure_is_atomic
    (model : ModelBehavior) (store : Store) (req : ChatRequest) (cause : String)
    (hfresh : dictGet store req.session_id = none)
    (hfail : model (chatContext store req) = .error cause) :
    (chat_endpoint model store req).2 = store := by
  rw [chat_endpoint_eq, hfail]
  simp [hfresh]

/-- Claim C10 witness: a failing call on a session id absent from a
non-empty store. -/
theorem c10_witness :
    (chat_endpoint (fun _ => .error "down") [("other", [⟨"user", "x"⟩])]
        ⟨"fresh", "hi", none⟩).2
      = [("other", [⟨"user", "x"⟩])] :=
  c10_fresh_session_failure_is_atomic (fun _ => .error "down")
    [("other", [⟨"user", "x"⟩])] ⟨"fresh", "hi", none⟩ "down" rfl rfl

/-- Claim C1 counterexample: for a session with no prior transcript ("s1"
absent from the empty store) and a failing model call, the store afterwards
has no entry for "s1" at all — the triggering user turn is NOT recorded,
contradicting the claim's "including one that had no transcript before the
request". -/
theorem c1_counterexample :
    dictGet (chat_endpoint (fun _ => .error "boom") [] ⟨"s1", "hello", none⟩).2 "s1"
        = none ∧
    ¬ ∃ t, dictGet (chat_endpoint (fun _ => .error "boom") [] ⟨"s1", "hello", none⟩).2 "s1"
        = some t ∧ Message.mk "user" "hello" ∈ t := by
  refine ⟨rfl, ?_⟩
  rintro ⟨t, ht, -⟩
  have hcontra : (none : Option (List Message)) = some t := ht
  exact Option.noConfusion hcontra

/-- Claim C1 amended: when the model call fails, for a session that already
has a store entry the user turn remains recorded — the entry becomes the old
transcript plus the user turn, no assistant turn is appended, and other
sessions are untouched; for a session with no prior entry the store is left
unchanged, so the user turn is not recorded. -/
theorem c1_amended_failure_keeps_user_turn_for_existing_session
    (model : ModelBehavior) (store : Store) (req : ChatRequest) (cause : String)
    (hfail : model (chatContext store req) = .error cause) :
    (∀ t, dictGet store req.session_id = some t →
      dictGet (chat_endpoint model store req).2 req.session_id
          = some (t ++ [⟨"user", req.message⟩]) ∧
      ∀ k, k ≠ req.session_id →
        dictGet (chat_endpoint model store req).2 k = dictGet store k) ∧
    (dictGet store req.session_id = none →
      (chat_endpoint model store req).2 = store) := by
  rw [chat_endpoint_eq, hfail]
  constructor
  · intro t hget
    simp only [hget, Option.isSome_some, if_true, Option.getD_some]
    refine ⟨dictGet_dictSet_same _ _ _, ?_⟩
    intro k hk
    exact dictGet_dictSet_ne _ _ _ _ hk
  · intro hnone
    simp [hnone]

/-- Claim C1 amended witness: a failing call on an existing session keeps
exactly the user turn; a failing call on a fresh session leaves the store
empty. -/
theorem c1_amended_witness :
    dictGet (chat_endpoint (fun _ => .error "boom")
        [("s1", [⟨"user", "hi"⟩])] ⟨"s1", "hello", none⟩).2 "s1"
      = some [⟨"user", "hi"⟩, ⟨"user", "hello"⟩] ∧
    (chat_endpoint (fun _ => .error "boom") [] ⟨"s2", "hello", none⟩).2 = [] :=
  ⟨((c1_amended_failure_keeps_user_turn_for_existing_session
      (fun _ => .error "boom") [("s1", [⟨"user", "hi"⟩])]
      ⟨"s1", "hello", none⟩ "boom" rfl).1 [⟨"user", "hi"⟩] rfl).1,
   (c1_amended_failure_keeps_user_turn_for_existing_session
      (fun _ => .error "boom") [] ⟨"s2", "hello", none⟩ "boom" rfl).2 rfl⟩

/-- Claim C2 counterexample: a request whose message is the empty string
(session id present and non-empty) is NOT rejected: validation passes, the
turns are appended, the call succeeds with a 200-style response, and the
store is changed — no 4xx BadRequest occurs. -/
theorem c2_counterexample :
    (handle_turn (fun _ => .ok "hi") [] ⟨some "s1", some "", none⟩).1
      = .ok ⟨"hi", [⟨"user", ""⟩, ⟨"assistant", "hi"⟩]⟩ ∧
    (handle_turn (fun _ => .ok "hi") [] ⟨some "s1", some "", none⟩).2
      = [("s1", [⟨"user", ""⟩, ⟨"assistant", "hi"⟩])] ∧
    ([] : Store) ≠ [("s1", [⟨"user", ""⟩, ⟨"assistant", "hi"⟩])] :=
  ⟨rfl, rfl, by decide⟩

/-- Claim C2 amended: a request in which session_id or message is absent is
rejected with a 422 validation (4xx-equivalent) error before the endpoint
body runs, and the store is unchanged; an empty string, however, passes
validation and is processed as an ordinary turn. -/
theorem c2_amended_missing_fields_rejected
    (model : ModelBehavior) (store : Store) (raw : RawChatRequest)
    (h : raw.session_id = none ∨ raw.message = none) :
    handle_turn model store raw = (.error ⟨422, "field required"⟩, store) := by
  obtain ⟨sid, msg, mn⟩ := raw
  cases sid <;> cases msg <;> simp_all [handle_turn, validateChatRequest]

/-- Claim C2 amended witness: a request with no session id is rejected and
the store is untouched. -/
theorem c2_amended_witness :
    handle_turn (fun _ => .ok "x") [("s", [⟨"user", "u"⟩])] ⟨none, some "hi", none⟩
      = (.error ⟨422, "field required"⟩, [("s", [⟨"user", "u"⟩])]) :=
  c2_amended_missing_fields_rejected (fun _ => .ok "x") [("s", [⟨"user", "u"⟩])]
    ⟨none, some "hi", none⟩ (Or.inl rfl)

end ConverseLite
